import Mathlib

/-!
Verification development for the TickIT backend AI endpoints.

This file gives a shallow embedding, in Lean 4, of the two inference
endpoints of the repository and of the helper functions they use:

* `backend/routers/sla.py` — the `predict_sla_risk` endpoint, the
  `SLA_DEFINITIONS` table and the mocked risk-score computation;
* `backend/routers/sla_model.py` — the `predict_breach_time` helper;
* `backend/routers/recommend.py` — the `recommend_resolution` endpoint,
  the mock knowledge base `MOCK_RESOLUTIONS_DATA`, the FAISS index
  construction `initialize_faiss_index` (embedded as `init_faiss_index`),
  the candidate walk with its distance-to-similarity conversion, and the
  random low-confidence fallback path.

Python floats are modelled as rationals (`ℚ`); `datetime` values are
modelled as rational "hours since an arbitrary epoch", so that
`timedelta(hours = h)` becomes addition of `h`.  Python's
`round(x, 3)` is modelled as `round3` (round-half-up at the third
decimal; the two models agree everywhere except exact half-thousandth
ties, which none of the statements below go near).  The randomness used
by the code (`random.uniform`, `random.sample`) is made explicit: every
random draw is a parameter of the embedded function, and the FAISS
search for the encoded ticket description is abstracted as a function
`searchFn` from the requested candidate count to the returned
`(position, distance)` rows.
-/

/-- Embeds Python's substring test `needle in hay` used on strings in
`sla.py` (for example `"Security" in request.category`). -/
def strContains (hay needle : String) : Bool :=
  (List.range (hay.toList.length + 1)).any fun i => needle.toList.isPrefixOf (hay.toList.drop i)

/-- Embeds Python's `round(q, 3)`: rounding to three decimal places.
Python uses banker's rounding on floats; on inputs that are not exact
half-thousandth ties (every input appearing in this file) the two agree,
and we use round-half-up. -/
def round3 (q : ℚ) : ℚ := ((q * 1000 + 1/2).floor : ℚ) / 1000

/-! ## SLA subsystem: `backend/routers/sla.py` and `backend/routers/sla_model.py` -/

/-- Embeds the `SLA_DEFINITIONS` dictionary (identical in `sla.py` and
`sla_model.py`) together with the `.get(priority, 48)` default used at
every access site. -/
def SLA_DEFINITIONS (priority : String) : ℚ :=
  if priority = "Critical" then 4
  else if priority = "High" then 8
  else if priority = "Medium" then 24
  else if priority = "Low" then 48
  else 48

/-- Embeds the pydantic request model `SLARiskRequest` of `sla.py`. -/
structure SLARiskRequest where
  priority : String
  open_time_hours : ℚ
  category : String
deriving DecidableEq

/-- Embeds the pydantic response model `SLARiskResponse` of `sla.py`,
with `predicted_breach_time` as an optional hour offset. -/
structure SLARiskResponse where
  risk_score : ℚ
  risk_status : String
  predicted_breach_time : Option ℚ
  model_used : String
deriving DecidableEq

/-- Embeds the risk-score computation of `predict_sla_risk`
(`sla.py` lines 65–84): `progress_ratio * 0.8` plus the
`random.uniform(-0.1, 0.1)` draw (here the explicit parameter `noise`),
clamped, then the two category adjustments, then the final clamp.  The
steps mirror the source lines one by one. -/
def riskScoreRaw (req : SLARiskRequest) (noise : ℚ) : ℚ :=
  let base_sla_hours := SLA_DEFINITIONS req.priority
  let progress_ratio := req.open_time_hours / base_sla_hours
  let r0 := min 1 (max 0 (progress_ratio * (8/10) + noise))
  let r1 := if strContains req.category "Security" || strContains req.category "Network"
            then r0 + 1/10 else r0
  let r2 := if strContains req.category "Software" && decide (req.open_time_hours > 12)
            then r1 + 5/100 else r1
  max 0 (min 1 r2)

/-- Embeds the tier cascade of `predict_sla_risk` (`sla.py` lines 87–94):
strict comparisons against 0.8, 0.6, 0.3 evaluated in order. -/
def riskStatus (q : ℚ) : String :=
  if q > 8/10 then "Critical"
  else if q > 6/10 then "High"
  else if q > 3/10 then "Medium"
  else "Low"

/-- Embeds the endpoint `predict_sla_risk` of `sla.py` (lines 41–116).
`noise` is the `random.uniform(-0.1, 0.1)` draw and `now` is
`datetime.utcnow()` in hours.  The response carries the score rounded to
three decimals, the tier computed from the unrounded score, and the
breach-time projection guarded by `progress_ratio < 1.0`. -/
def predict_sla_risk (req : SLARiskRequest) (noise : ℚ) (now : ℚ) : SLARiskResponse :=
  let base_sla_hours := SLA_DEFINITIONS req.priority
  let progress_ratio := req.open_time_hours / base_sla_hours
  let score := riskScoreRaw req noise
  { risk_score := round3 score
    risk_status := riskStatus score
    predicted_breach_time :=
      if progress_ratio < 1 then some (now + (base_sla_hours - req.open_time_hours)) else none
    model_used := "Mock Logistic Regression" }

/-- Embeds `predict_breach_time` of `sla_model.py` (lines 107–123), with
`current_utc_time` as an explicit hour offset. -/
def predict_breach_time (priority : String) (open_time_hours : ℚ) (current_utc_time : ℚ) :
    Option ℚ :=
  let base_sla_hours := SLA_DEFINITIONS priority
  if base_sla_hours ≤ open_time_hours then none
  else some (current_utc_time + (base_sla_hours - open_time_hours))

/-- Restates, in the wording of the amended claim C1, the mocked score
that `predict_sla_risk` actually computes: the clamp to `[0, 1]` of
`(open_time_hours / SLA_DEFINITIONS[priority]) × 0.8` plus the uniform
noise draw, plus `0.1` for Security/Network categories and `0.05` for
Software categories open longer than 12 hours, re-clamped.  It is a
single closed-form expression, to be compared with the line-by-line
embedding `riskScoreRaw`. -/
def risk_score_mock_formula (req : SLARiskRequest) (noise : ℚ) : ℚ :=
  max 0 (min 1 (min 1 (max 0 (req.open_time_hours / SLA_DEFINITIONS req.priority * (8/10) + noise))
    + (if strContains req.category "Security" || strContains req.category "Network" then 1/10 else 0)
    + (if strContains req.category "Software" && decide (req.open_time_hours > 12) then 5/100 else 0)))

/-! ## Recommendation subsystem: `backend/routers/recommend.py` -/

/-- Embeds one entry of `MOCK_RESOLUTIONS_DATA` (a dict with keys `id`,
`text`, `category`; every entry carries all three keys). -/
structure ResolutionRecord where
  id : String
  text : String
  category : String
deriving DecidableEq

/-- Embeds the `MOCK_RESOLUTIONS_DATA` knowledge base of `recommend.py`
(lines 19–80), in source order. -/
def MOCK_RESOLUTIONS_DATA : List ResolutionRecord :=
  [⟨"res1", "Reboot the system and check network connectivity.", "Network Problem"⟩,
   ⟨"res2", "Clear browser cache and cookies, then try again.", "Software Issue"⟩,
   ⟨"res3", "Verify user credentials and reset password.", "Account Management"⟩,
   ⟨"res4", "Update graphics drivers to the latest version.", "Software Issue"⟩,
   ⟨"res5", "Check hard drive health using diagnostic tools.", "Hardware Failure"⟩,
   ⟨"res6", "Ensure VPN client is connected and configured correctly.", "Network Problem"⟩,
   ⟨"res7", "Grant necessary file permissions to the application directory.", "Software Issue"⟩,
   ⟨"res8", "Replace faulty RAM modules.", "Hardware Failure"⟩,
   ⟨"res9", "Review firewall rules for blocked ports.", "Network Problem"⟩,
   ⟨"res10", "Escalate to security team for incident investigation.", "Security Incident"⟩,
   ⟨"res11", "Instruct user to check spam folder for activation email.", "Account Management"⟩,
   ⟨"res12", "Perform a clean install of the operating system.", "Software Issue"⟩,
   ⟨"res13", "Check server load and resource utilization.", "Performance Issue"⟩,
   ⟨"res14", "Consult the official documentation for setup instructions.", "Documentation Error"⟩,
   ⟨"res15", "Verify physical cable connections for all devices.", "Hardware Failure"⟩,
   ⟨"res16", "Restart the affected service and monitor logs for errors.", "Software Issue"⟩,
   ⟨"res17", "Check DNS configuration and resolve domain issues.", "Network Problem"⟩,
   ⟨"res18", "Reset multi-factor authentication for the user.", "Account Management"⟩,
   ⟨"res19", "Apply latest security patches to the server.", "Security Incident"⟩,
   ⟨"res20", "Increase disk quota or free up space on the drive.", "Performance Issue"⟩,
   ⟨"res21", "Verify SSL certificates are valid and not expired.", "Security Incident"⟩,
   ⟨"res22", "Check event logs for critical errors and warnings.", "Software Issue"⟩,
   ⟨"res23", "Replace defective power supply units.", "Hardware Failure"⟩,
   ⟨"res24", "Confirm network switch is powered on and connected.", "Network Problem"⟩,
   ⟨"res25", "Review application logs for exception stack traces.", "Software Issue"⟩,
   ⟨"res26", "Reset the user\x27s mailbox password.", "Account Management"⟩,
   ⟨"res27", "Optimize database indexes for faster queries.", "Performance Issue"⟩,
   ⟨"res28", "Run antivirus scans to detect malware.", "Security Incident"⟩,
   ⟨"res29", "Check CPU and memory usage to identify bottlenecks.", "Performance Issue"⟩,
   ⟨"res30", "Verify user is assigned to correct security groups.", "Account Management"⟩,
   ⟨"res31", "Update firmware on network devices.", "Network Problem"⟩,
   ⟨"res32", "Reinstall problematic software applications.", "Software Issue"⟩,
   ⟨"res33", "Check for loose or damaged cables inside the server.", "Hardware Failure"⟩,
   ⟨"res34", "Adjust firewall rules to allow necessary traffic.", "Network Problem"⟩,
   ⟨"res35", "Enable logging for further diagnostics.", "Software Issue"⟩,
   ⟨"res36", "Reset network adapter settings on the client machine.", "Network Problem"⟩,
   ⟨"res37", "Verify backup jobs ran successfully.", "Performance Issue"⟩,
   ⟨"res38", "Update antivirus definitions to latest version.", "Security Incident"⟩,
   ⟨"res39", "Check hardware temperature sensors for overheating.", "Hardware Failure"⟩,
   ⟨"res40", "Ensure correct proxy settings are configured.", "Network Problem"⟩,
   ⟨"res41", "Provide user with instructions to reset account settings.", "Account Management"⟩,
   ⟨"res42", "Run disk cleanup utilities to free up space.", "Performance Issue"⟩,
   ⟨"res43", "Verify software license is valid and not expired.", "Software Issue"⟩,
   ⟨"res44", "Test connectivity using ping and traceroute.", "Network Problem"⟩,
   ⟨"res45", "Replace worn out or failing hard drives.", "Hardware Failure"⟩,
   ⟨"res46", "Reboot the database server after maintenance.", "Performance Issue"⟩,
   ⟨"res47", "Enable two-factor authentication for enhanced security.", "Security Incident"⟩,
   ⟨"res48", "Check application configuration files for errors.", "Software Issue"⟩,
   ⟨"res49", "Review server uptime and restart if necessary.", "Performance Issue"⟩,
   ⟨"res50", "Update VPN server configuration to match new policies.", "Network Problem"⟩,
   ⟨"res51", "Clean and reseat memory modules.", "Hardware Failure"⟩,
   ⟨"res52", "Check print server and queue for stuck jobs.", "Software Issue"⟩,
   ⟨"res53", "Audit user permissions to ensure least privilege.", "Account Management"⟩,
   ⟨"res54", "Verify that backup power supplies are functioning.", "Hardware Failure"⟩,
   ⟨"res55", "Review cloud service logs for anomalies.", "Security Incident"⟩,
   ⟨"res56", "Reset browser settings to default for troubleshooting.", "Software Issue"⟩,
   ⟨"res57", "Check DHCP server logs for lease issues.", "Network Problem"⟩,
   ⟨"res58", "Upgrade server RAM for better performance.", "Hardware Failure"⟩,
   ⟨"res59", "Check load balancer health and configuration.", "Network Problem"⟩,
   ⟨"res60", "Schedule periodic maintenance tasks for optimization.", "Performance Issue"⟩]

/-- Embeds the pydantic request model `RecommendationRequest` of
`recommend.py`. -/
structure RecommendationRequest where
  ticket_description : String
  category : Option String
deriving DecidableEq

/-- Embeds one recommendation dict as built by `recommend_resolution`
(both the genuine path, lines 170–175, and the fallback path, lines
181–188, build exactly these four keys and no others). -/
structure ResolutionRecommendation where
  resolution_id : String
  text : String
  score : ℚ
  category : String
deriving DecidableEq

/-- Embeds the similarity conversion of `recommend.py` line 168:
`similarity = max(0, 1 - (distance / 2.0))`. -/
def similarity (distance : ℚ) : ℚ := max 0 (1 - distance / 2)

/-- Embeds the dict built on the genuine path of the candidate walk
(`recommend.py` lines 170–175). -/
def mkGenuineRec (res : ResolutionRecord) (distance : ℚ) : ResolutionRecommendation :=
  { resolution_id := res.id
    text := res.text
    score := round3 (similarity distance)
    category := res.category }

/-- Embeds the dict built on the random fallback path (`recommend.py`
lines 181–188); `r` is the `random.uniform(0.3, 0.6)` draw. -/
def mkFallbackRec (res : ResolutionRecord) (r : ℚ) : ResolutionRecommendation :=
  { resolution_id := res.id
    text := res.text
    score := round3 r
    category := res.category }

/-- Embeds Python list indexing `l[idx]` with an `int` index: a
non-negative index reads from the front, a negative index counts from
the end, and an index below `-len(l)` raises `IndexError` (modelled as
`none`). -/
def pyGet (l : List ResolutionRecord) (idx : Int) : Option ResolutionRecord :=
  if 0 ≤ idx then l.get? idx.toNat
  else if (-idx).toNat ≤ l.length then l.get? (l.length - (-idx).toNat)
  else none

/-- Embeds the filter test of `recommend.py` line 164:
`request.category and res_data.get("category") != request.category`,
including Python truthiness (both `None` and the empty string disable
the filter). -/
def catMismatch (reqCat : Option String) (resCat : String) : Bool :=
  match reqCat with
  | none => false
  | some c => if c = "" then false else decide (resCat ≠ c)

/-- Embeds the candidate walk of `recommend_resolution` (`recommend.py`
lines 150–176): stop at 3 accepted results, skip positions `≥ len`,
resolve the position with Python indexing (negative positions read from
the end; `IndexError` propagates as `none`), skip already-seen ids, skip
category mismatches, otherwise accept with the converted score. -/
def candidateWalk (md : List ResolutionRecord) (reqCat : Option String) :
    List (Int × ℚ) → List ResolutionRecommendation → List String →
    Option (List ResolutionRecommendation)
  | [], acc, _ => some acc
  | (idx, d) :: rest, acc, seen =>
    if 3 ≤ acc.length then some acc
    else if (md.length : Int) ≤ idx then candidateWalk md reqCat rest acc seen
    else
      match pyGet md idx with
      | none => none
      | some res =>
        if res.id ∈ seen then candidateWalk md reqCat rest acc seen
        else if catMismatch reqCat res.category then candidateWalk md reqCat rest acc seen
        else candidateWalk md reqCat rest (acc ++ [mkGenuineRec res d]) (res.id :: seen)

/-- Embeds the hardcoded candidate count of `recommend.py` line 147:
`k = 5`. -/
def recommend_k : Nat := 5

/-- Embeds the fallback list construction of `recommend.py` lines
180–188: the records sampled by `random.sample` paired with their
`random.uniform(0.3, 0.6)` draws. -/
def fallbackRecs (sample : List ResolutionRecord) (draws : List ℚ) :
    List ResolutionRecommendation :=
  List.zipWith mkFallbackRec sample draws

/-- Outcome of one call to the `recommend_resolution` endpoint: the 503
raised when the model or index is missing, the `IndexError` a position
below `-len` would raise, or a 200 with the recommendation list. -/
inductive RecommendOutcome
  | serviceUnavailable
  | indexError
  | ok (recommendations : List ResolutionRecommendation)
deriving DecidableEq

/-- Embeds the endpoint `recommend_resolution` of `recommend.py` (lines
134–192).  `ready` is `faiss_index is not None and sentence_model is not
None`; `searchFn k` gives the `(position, distance)` rows the FAISS
search returns for the encoded description when asked for `k`
candidates; `sample` and `draws` are the random choices of the fallback
path. -/
def recommend_resolution (ready : Bool) (req : RecommendationRequest)
    (searchFn : Nat → List (Int × ℚ)) (sample : List ResolutionRecord) (draws : List ℚ) :
    RecommendOutcome :=
  if ready = false then .serviceUnavailable
  else
    match candidateWalk MOCK_RESOLUTIONS_DATA req.category (searchFn recommend_k) [] [] with
    | none => .indexError
    | some recs => if recs.isEmpty then .ok (fallbackRecs sample draws) else .ok recs

/-- Embeds the vector/metadata state built by `initialize_faiss_index`
(`recommend.py` lines 97–113): the FAISS index population (one embedding
per text) and the aligned metadata list. -/
structure FaissState where
  vectors : List (List ℚ)
  metadata : List ResolutionRecord

/-- Embeds `sentence_model.encode(texts, ...)` as an order-preserving
map of an abstract per-text encoder over the text list. -/
def encode_batch (enc : String → List ℚ) (texts : List String) : List (List ℚ) :=
  texts.map enc

/-- Embeds `initialize_faiss_index` of `recommend.py` (lines 97–113) for
the case where the sentence model is present: the index receives the
embeddings of `resolution_texts` (the `text` field of every knowledge
base entry, in order) and the metadata list is the knowledge base
itself. -/
def init_faiss_index (enc : String → List ℚ) : FaissState :=
  { vectors := encode_batch enc (MOCK_RESOLUTIONS_DATA.map fun r => r.text)
    metadata := MOCK_RESOLUTIONS_DATA }

/-! ## Helper lemmas -/

/-- Bridge from the executable `Rat.floor` used in `round3` to Mathlib's
`Int.floor`. -/
lemma ratFloor_eq_intFloor (q : ℚ) : q.floor = ⌊q⌋ := by
  rw [Rat.floor_def', ← Rat.floor_def]

/-- Evaluation rule for `round3` at a concrete input. -/
lemma round3_eval (q : ℚ) (z : ℤ) (h1 : (z:ℚ) ≤ q * 1000 + 1/2) (h2 : q * 1000 + 1/2 < z + 1) :
    round3 q = (z:ℚ) / 1000 := by
  unfold round3
  rw [ratFloor_eq_intFloor]
  have hz : ⌊q * 1000 + 1/2⌋ = z := Int.floor_eq_iff.mpr ⟨h1, by exact_mod_cast h2⟩
  rw [hz]

/-- Rounding to three decimals stays inside any band whose endpoints are
integer multiples of `1/1000`. -/
lemma round3_mem (m n : ℤ) (q : ℚ) (h1 : (m:ℚ)/1000 ≤ q) (h2 : q ≤ (n:ℚ)/1000) :
    (m:ℚ)/1000 ≤ round3 q ∧ round3 q ≤ (n:ℚ)/1000 := by
  unfold round3
  rw [ratFloor_eq_intFloor]
  constructor
  · have hm : m ≤ ⌊q * 1000 + 1/2⌋ := Int.le_floor.mpr (by linarith)
    have h3 : (m:ℚ) ≤ (⌊q * 1000 + 1/2⌋ : ℚ) := by exact_mod_cast hm
    linarith
  · have hn : ⌊q * 1000 + 1/2⌋ < n + 1 := Int.floor_lt.mpr (by push_cast; linarith)
    have hn2 : ⌊q * 1000 + 1/2⌋ ≤ n := by omega
    have h3 : ((⌊q * 1000 + 1/2⌋ : ℤ) : ℚ) ≤ (n:ℚ) := by exact_mod_cast hn2
    linarith

/-- Rounding keeps the fallback confidence band `[0.3, 0.6]`. -/
lemma round3_band (r : ℚ) (h1 : 3/10 ≤ r) (h2 : r ≤ 6/10) :
    3/10 ≤ round3 r ∧ round3 r ≤ 6/10 := by
  have h := round3_mem 300 600 r (by push_cast; linarith) (by push_cast; linarith)
  push_cast at h
  norm_num at h
  exact ⟨h.1, by linarith [h.2]⟩

/-- Rounding keeps the unit interval. -/
lemma round3_unit (r : ℚ) (h1 : 0 ≤ r) (h2 : r ≤ 1) :
    0 ≤ round3 r ∧ round3 r ≤ 1 := by
  have h := round3_mem 0 1000 r (by push_cast; linarith) (by push_cast; linarith)
  push_cast at h
  norm_num at h
  exact h

/-- Every SLA window in the table (default included) is positive. -/
lemma SLA_DEFINITIONS_pos (priority : String) : 0 < SLA_DEFINITIONS priority := by
  unfold SLA_DEFINITIONS
  split_ifs <;> norm_num

/-- The mocked raw risk score ends in a clamp to `[0, 1]`. -/
lemma riskScoreRaw_unit (req : SLARiskRequest) (noise : ℚ) :
    0 ≤ riskScoreRaw req noise ∧ riskScoreRaw req noise ≤ 1 := by
  simp only [riskScoreRaw]
  exact ⟨le_max_left _ _, max_le (by norm_num) (min_le_left _ _)⟩

/-- Every element of a fallback list is a fallback dict built from one
of the uniform draws. -/
lemma mem_fallbackRecs (sample : List ResolutionRecord) (draws : List ℚ)
    (x : ResolutionRecommendation) (hx : x ∈ fallbackRecs sample draws) :
    ∃ res r, r ∈ draws ∧ x = mkFallbackRec res r := by
  unfold fallbackRecs at hx
  induction sample generalizing draws with
  | nil => simp [List.zipWith] at hx
  | cons a s ih =>
    cases draws with
    | nil => simp [List.zipWith] at hx
    | cons b d =>
      simp only [List.zipWith, List.mem_cons] at hx
      rcases hx with hx | hx
      · exact ⟨a, b, List.mem_cons_self b d, hx⟩
      · rcases ih d hx with ⟨res, r, hr, hxe⟩
        exact ⟨res, r, List.mem_cons_of_mem b hr, hxe⟩

/-! ## Claim C1 -/

/-- Claim C1, counterexample: the risk score returned by
`predict_sla_risk` is not a deterministic function of
`(priority, category, open_time_hours)` — two calls with identical
inputs but different admissible `random.uniform(-0.1, 0.1)` draws return
different `risk_score` values, so it cannot equal the trained
classifier's predicted probability for those features. -/
theorem C1_counterexample_nondeterministic :
    (predict_sla_risk ⟨"Low", 0, "General"⟩ (-1/10) 0).risk_score ≠
    (predict_sla_risk ⟨"Low", 0, "General"⟩ (1/10) 0).risk_score := by
  have hs : strContains "General" "Security" = false := rfl
  have hn : strContains "General" "Network" = false := rfl
  have hw : strContains "General" "Software" = false := rfl
  have h1 : riskScoreRaw ⟨"Low", 0, "General"⟩ (-1/10) = 0 := by
    simp [riskScoreRaw, SLA_DEFINITIONS, hs, hn, hw]
    norm_num
  have h2 : riskScoreRaw ⟨"Low", 0, "General"⟩ (1/10) = 1/10 := by
    simp [riskScoreRaw, SLA_DEFINITIONS, hs, hn, hw]
    norm_num
  have e1 : (predict_sla_risk ⟨"Low", 0, "General"⟩ (-1/10) 0).risk_score =
      round3 (riskScoreRaw ⟨"Low", 0, "General"⟩ (-1/10)) := rfl
  have e2 : (predict_sla_risk ⟨"Low", 0, "General"⟩ (1/10) 0).risk_score =
      round3 (riskScoreRaw ⟨"Low", 0, "General"⟩ (1/10)) := rfl
  rw [e1, e2, h1, h2, round3_eval 0 0 (by norm_num) (by norm_num),
      round3_eval (1/10) 100 (by norm_num) (by norm_num)]
  norm_num

/-- Claim C1 as amended: the endpoint never consults the trained
classifier; its `risk_score` is the mocked closed-form value
`clamp01(progress × 0.8 + noise)` with the category adjustments and the
final clamp, rounded to three decimals, where `noise` is the uniform
draw — so the score is a function of the inputs and the draw, not of the
inputs alone. -/
theorem C1_amended_mock_formula (req : SLARiskRequest) (noise now : ℚ) :
    (predict_sla_risk req noise now).risk_score = round3 (risk_score_mock_formula req noise) := by
  have e : (predict_sla_risk req noise now).risk_score = round3 (riskScoreRaw req noise) := rfl
  rw [e]
  congr 1
  unfold riskScoreRaw risk_score_mock_formula
  dsimp only
  split_ifs <;> ring_nf

/-- Claim C1, instantiation of the amended theorem at a concrete
input. -/
theorem C1_witness :
    (predict_sla_risk ⟨"Medium", 6, "Network"⟩ (1/10) 0).risk_score =
      round3 (risk_score_mock_formula ⟨"Medium", 6, "Network"⟩ (1/10)) :=
  C1_amended_mock_formula ⟨"Medium", 6, "Network"⟩ (1/10) 0

/-! ## Claim C2 -/

/-- Claim C2, counterexample: a response produced by the random fallback
path is byte-identical to a response produced by the genuine similarity
path (same request, same four fields, same score `0.45`), so the
returned items carry no fallback marker of any kind — nothing
distinguishes the fallback from a genuine similarity result. -/
theorem C2_counterexample_no_marker :
    recommend_resolution true ⟨"printer is broken", none⟩ (fun _ => [])
      [⟨"res1", "Reboot the system and check network connectivity.", "Network Problem"⟩] [9/20] =
    recommend_resolution true ⟨"printer is broken", none⟩ (fun _ => [((0:Int), (11/10:ℚ))]) [] [] := by
  have hA : recommend_resolution true ⟨"printer is broken", none⟩ (fun _ => [])
      [⟨"res1", "Reboot the system and check network connectivity.", "Network Problem"⟩] [9/20] =
      RecommendOutcome.ok [mkFallbackRec
        ⟨"res1", "Reboot the system and check network connectivity.", "Network Problem"⟩ (9/20)] := rfl
  have hB : recommend_resolution true ⟨"printer is broken", none⟩
      (fun _ => [((0:Int), (11/10:ℚ))]) [] [] =
      RecommendOutcome.ok [mkGenuineRec
        ⟨"res1", "Reboot the system and check network connectivity.", "Network Problem"⟩ (11/10)] := rfl
  rw [hA, hB]
  have hrec : mkFallbackRec
      ⟨"res1", "Reboot the system and check network connectivity.", "Network Problem"⟩ (9/20) =
      mkGenuineRec
      ⟨"res1", "Reboot the system and check network connectivity.", "Network Problem"⟩ (11/10) := by
    unfold mkFallbackRec mkGenuineRec
    have hsim : similarity (11/10) = 9/20 := by
      unfold similarity
      rw [show (1:ℚ) - 11/10/2 = 9/20 by norm_num, max_eq_right (by norm_num : (0:ℚ) ≤ 9/20)]
    rw [hsim]
  rw [hrec]

/-- Claim C2 as amended: when zero candidates survive the walk,
`recommend_resolution` answers 200 with the randomly sampled records,
each scored by its `random.uniform(0.3, 0.6)` draw rounded to three
decimals (so every returned score lies in `[0.3, 0.6]`) — but the items
carry no fallback marker: they consist of exactly the same four fields
a genuine similarity result has. -/
theorem C2_amended_unmarked_fallback (req : RecommendationRequest)
    (f : Nat → List (Int × ℚ)) (sample : List ResolutionRecord) (draws : List ℚ)
    (hwalk : candidateWalk MOCK_RESOLUTIONS_DATA req.category (f recommend_k) [] [] = some [])
    (hdraws : ∀ r ∈ draws, 3/10 ≤ r ∧ r ≤ 6/10) :
    recommend_resolution true req f sample draws = .ok (fallbackRecs sample draws) ∧
    ∀ rec ∈ fallbackRecs sample draws, 3/10 ≤ rec.score ∧ rec.score ≤ 6/10 := by
  constructor
  · simp [recommend_resolution, hwalk]
  · intro rec hrec
    rcases mem_fallbackRecs sample draws rec hrec with ⟨res, r, hr, hre⟩
    have hb := round3_band r (hdraws r hr).1 (hdraws r hr).2
    rw [hre]
    exact hb

/-- Claim C2, instantiation of the amended theorem at a concrete
fallback request. -/
theorem C2_witness :
    recommend_resolution true ⟨"printer is broken", none⟩ (fun _ => [])
      [⟨"res1", "Reboot the system and check network connectivity.", "Network Problem"⟩] [9/20] =
      RecommendOutcome.ok (fallbackRecs
        [⟨"res1", "Reboot the system and check network connectivity.", "Network Problem"⟩] [9/20]) ∧
    ∀ rec ∈ fallbackRecs
        [⟨"res1", "Reboot the system and check network connectivity.", "Network Problem"⟩] [9/20],
      3/10 ≤ rec.score ∧ rec.score ≤ 6/10 :=
  C2_amended_unmarked_fallback ⟨"printer is broken", none⟩ (fun _ => [])
    [⟨"res1", "Reboot the system and check network connectivity.", "Network Problem"⟩] [9/20]
    rfl
    (by intro r hr; rw [List.mem_singleton] at hr; rw [hr]; norm_num)

/-! ## Claim C3 -/

/-- Claim C3, counterexample: the outcome of `recommend_resolution` is
not determined by the search results for `k = max(top_n × 2, 5) = 6`
candidates — two search functions that agree at 6 produce different
outcomes — and the hardcoded candidate count is 5, not 6. -/
theorem C3_counterexample_not_six :
    ((fun _ : Nat => ([] : List (Int × ℚ))) (max (3 * 2) 5) =
      (fun n : Nat => if n = 5 then [((0:Int), (0:ℚ))] else []) (max (3 * 2) 5)) ∧
    recommend_resolution true ⟨"keyboard stuck", none⟩ (fun _ => [])
      [⟨"res1", "Reboot the system and check network connectivity.", "Network Problem"⟩] [9/20] ≠
    recommend_resolution true ⟨"keyboard stuck", none⟩
      (fun n => if n = 5 then [((0:Int), (0:ℚ))] else [])
      [⟨"res1", "Reboot the system and check network connectivity.", "Network Problem"⟩] [9/20] ∧
    recommend_k ≠ max (3 * 2) 5 := by
  refine ⟨rfl, ?_, by norm_num [recommend_k]⟩
  have hA : recommend_resolution true ⟨"keyboard stuck", none⟩ (fun _ => [])
      [⟨"res1", "Reboot the system and check network connectivity.", "Network Problem"⟩] [9/20] =
      RecommendOutcome.ok [mkFallbackRec
        ⟨"res1", "Reboot the system and check network connectivity.", "Network Problem"⟩ (9/20)] := rfl
  have hB : recommend_resolution true ⟨"keyboard stuck", none⟩
      (fun n => if n = 5 then [((0:Int), (0:ℚ))] else [])
      [⟨"res1", "Reboot the system and check network connectivity.", "Network Problem"⟩] [9/20] =
      RecommendOutcome.ok [mkGenuineRec
        ⟨"res1", "Reboot the system and check network connectivity.", "Network Problem"⟩ 0] := rfl
  rw [hA, hB]
  intro hcontra
  have hinj := hcontra
  simp only [RecommendOutcome.ok.injEq, List.cons.injEq] at hinj
  have hscore := congrArg ResolutionRecommendation.score hinj.1
  have hs1 : (mkFallbackRec
      ⟨"res1", "Reboot the system and check network connectivity.", "Network Problem"⟩ (9/20)).score =
      9/20 := by
    show round3 (9/20) = 9/20
    rw [round3_eval (9/20) 450 (by norm_num) (by norm_num)]
    norm_num
  have hs2 : (mkGenuineRec
      ⟨"res1", "Reboot the system and check network connectivity.", "Network Problem"⟩ 0).score =
      1 := by
    show round3 (similarity 0) = 1
    rw [show similarity 0 = 1 by
      unfold similarity
      rw [show (1:ℚ) - 0/2 = 1 by norm_num, max_eq_right (by norm_num : (0:ℚ) ≤ 1)]]
    rw [round3_eval 1 1000 (by norm_num) (by norm_num)]
    norm_num
  rw [hs1, hs2] at hscore
  norm_num at hscore

/-- Claim C3 as amended: `recommend_resolution` asks the index for a
hardcoded `k = 5` candidates, independent of the fixed response cap of
3, and its outcome depends on the search function only through its
value at 5. -/
theorem C3_amended_fixed_k (ready : Bool) (req : RecommendationRequest)
    (f g : Nat → List (Int × ℚ)) (sample : List ResolutionRecord) (draws : List ℚ)
    (hfg : f recommend_k = g recommend_k) :
    recommend_k = 5 ∧
    recommend_resolution ready req f sample draws =
      recommend_resolution ready req g sample draws := by
  refine ⟨rfl, ?_⟩
  unfold recommend_resolution
  rw [hfg]

/-- Claim C3, instantiation of the amended theorem at two concrete
search functions agreeing at 5. -/
theorem C3_witness :
    recommend_k = 5 ∧
    recommend_resolution true ⟨"keyboard stuck", none⟩ (fun _ => []) [] [] =
      recommend_resolution true ⟨"keyboard stuck", none⟩
        (fun k => List.replicate (k - 5) ((0:Int), (0:ℚ))) [] [] :=
  C3_amended_fixed_k true ⟨"keyboard stuck", none⟩ (fun _ => [])
    (fun k => List.replicate (k - 5) ((0:Int), (0:ℚ))) [] [] rfl

/-! ## Claim C4 -/

/-- Claim C4, counterexample: the empty ticket description — shorter
than any positive minimum length — is not rejected: with the service
initialized, `recommend_resolution` serves a normal 200 result for
it. -/
theorem C4_counterexample_no_min_length :
    ("" : String).length = 0 ∧
    recommend_resolution true ⟨"", none⟩ (fun _ => [((0:Int), (0:ℚ))]) [] [] =
      RecommendOutcome.ok [mkGenuineRec
        ⟨"res1", "Reboot the system and check network connectivity.", "Network Problem"⟩ 0] :=
  ⟨rfl, rfl⟩

/-- Claim C4 as amended: `recommend_resolution` performs no
minimum-length validation at all — the only error it raises is the 503
service-unavailable when the model or index is missing; with the service
initialized it never rejects a request, whatever the description. -/
theorem C4_amended_no_length_check (req : RecommendationRequest)
    (f : Nat → List (Int × ℚ)) (sample : List ResolutionRecord) (draws : List ℚ) :
    recommend_resolution false req f sample draws = RecommendOutcome.serviceUnavailable ∧
    recommend_resolution true req f sample draws ≠ RecommendOutcome.serviceUnavailable := by
  constructor
  · rfl
  · unfold recommend_resolution
    rcases hw : candidateWalk MOCK_RESOLUTIONS_DATA req.category (f recommend_k) [] [] with _ | recs
    · simp [hw]
    · by_cases he : recs.isEmpty <;> simp [hw, he]

/-- Claim C4, instantiation of the amended theorem at the empty
description. -/
theorem C4_witness :
    recommend_resolution false ⟨"", none⟩ (fun _ => []) [] [] =
      RecommendOutcome.serviceUnavailable ∧
    recommend_resolution true ⟨"", none⟩ (fun _ => []) [] [] ≠
      RecommendOutcome.serviceUnavailable :=
  C4_amended_no_length_check ⟨"", none⟩ (fun _ => []) [] []

/-! ## Claim C5 -/

/-- Claim C5: the risk tier is determined from the computed score by the
strict cascade `> 0.8 → Critical; > 0.6 → High; > 0.3 → Medium; else
Low`, evaluated in that order; in particular a score of exactly 0.8 maps
to High and 0.3 maps to Low, and the endpoint's `risk_status` is exactly
this cascade applied to the unrounded computed score. -/
theorem C5_risk_tier_thresholds (q : ℚ) (req : SLARiskRequest) (noise now : ℚ) :
    (riskStatus q = "Critical" ↔ 8/10 < q) ∧
    (riskStatus q = "High" ↔ 6/10 < q ∧ q ≤ 8/10) ∧
    (riskStatus q = "Medium" ↔ 3/10 < q ∧ q ≤ 6/10) ∧
    (riskStatus q = "Low" ↔ q ≤ 3/10) ∧
    riskStatus (8/10) = "High" ∧ riskStatus (3/10) = "Low" ∧
    (predict_sla_risk req noise now).risk_status = riskStatus (riskScoreRaw req noise) := by
  refine ⟨?_, ?_, ?_, ?_, by norm_num [riskStatus], by norm_num [riskStatus], rfl⟩
  all_goals unfold riskStatus
  all_goals split_ifs with h1 h2 h3
  all_goals simp_all
  all_goals try intro hx
  all_goals try linarith

/-- Claim C5, instantiation of the boundary cases through the
theorem. -/
theorem C5_witness :
    riskStatus (8/10) = "High" ∧ riskStatus (3/10) = "Low" :=
  ⟨(C5_risk_tier_thresholds 0 ⟨"Low", 0, "General"⟩ 0 0).2.2.2.2.1,
   (C5_risk_tier_thresholds 0 ⟨"Low", 0, "General"⟩ 0 0).2.2.2.2.2.1⟩

/-! ## Claim C6 -/

/-- Claim C6: the predicted breach time is `none` exactly when
`open_time_hours ≥ SLA_DEFINITIONS[priority]`, and otherwise equals
`now + (SLA_DEFINITIONS[priority] − open_time_hours)`; moreover the
standalone `predict_breach_time` of `sla_model.py` agrees with the
endpoint's projection at every input. -/
theorem C6_predicted_breach_time (req : SLARiskRequest) (noise now : ℚ)
    (_h : 0 ≤ req.open_time_hours) :
    ((predict_sla_risk req noise now).predicted_breach_time = none ↔
      SLA_DEFINITIONS req.priority ≤ req.open_time_hours) ∧
    (req.open_time_hours < SLA_DEFINITIONS req.priority →
      (predict_sla_risk req noise now).predicted_breach_time =
        some (now + (SLA_DEFINITIONS req.priority - req.open_time_hours))) ∧
    (∀ p t c n2 now2, predict_breach_time p t now2 =
      (predict_sla_risk ⟨p, t, c⟩ n2 now2).predicted_breach_time) := by
  have hb := SLA_DEFINITIONS_pos req.priority
  have e : (predict_sla_risk req noise now).predicted_breach_time =
      (if req.open_time_hours / SLA_DEFINITIONS req.priority < 1
       then some (now + (SLA_DEFINITIONS req.priority - req.open_time_hours)) else none) := rfl
  refine ⟨?_, ?_, ?_⟩
  · rw [e]
    by_cases hge : SLA_DEFINITIONS req.priority ≤ req.open_time_hours
    · rw [if_neg (by rw [not_lt]; exact (one_le_div hb).mpr hge)]
      simp [hge]
    · rw [if_pos ((div_lt_one hb).mpr (not_le.mp hge))]
      simp [hge]
  · intro hlt
    rw [e, if_pos ((div_lt_one hb).mpr hlt)]
  · intro p t c n2 now2
    have hb2 := SLA_DEFINITIONS_pos p
    have e2 : (predict_sla_risk ⟨p, t, c⟩ n2 now2).predicted_breach_time =
        (if t / SLA_DEFINITIONS p < 1 then some (now2 + (SLA_DEFINITIONS p - t)) else none) := rfl
    rw [e2]
    unfold predict_breach_time
    dsimp only
    by_cases hge : SLA_DEFINITIONS p ≤ t
    · rw [if_pos hge, if_neg (by rw [not_lt]; exact (one_le_div hb2).mpr hge)]
    · rw [if_neg hge, if_pos ((div_lt_one hb2).mpr (not_le.mp hge))]

/-- Claim C6, instantiation at the two examples of the spec: a Critical
ticket open 5 hours (4-hour window) has no predicted breach time, and a
Low ticket open 1 hour (48-hour window) breaches 47 hours from now. -/
theorem C6_witness :
    (predict_sla_risk ⟨"Critical", 5, "Network"⟩ 0 0).predicted_breach_time = none ∧
    (predict_sla_risk ⟨"Low", 1, "Software"⟩ 0 0).predicted_breach_time = some 47 := by
  constructor
  · exact (C6_predicted_breach_time ⟨"Critical", 5, "Network"⟩ 0 0 (by norm_num)).1.mpr
      (by rw [show SLA_DEFINITIONS "Critical" = 4 from rfl]; norm_num)
  · have h2 := (C6_predicted_breach_time ⟨"Low", 1, "Software"⟩ 0 0 (by norm_num)).2.1
      (by rw [show SLA_DEFINITIONS "Low" = 48 from rfl]; norm_num)
    rw [h2, show SLA_DEFINITIONS "Low" = 48 from rfl]
    norm_num

/-! ## Claim C7 -/

/-- Claim C7: the similarity conversion `max(0, 1 − d/2)` maps every
non-negative distance into `[0, 1]` and is monotonically non-increasing
in the distance. -/
theorem C7_similarity_bounded_monotone (d1 d2 : ℚ) (h0 : 0 ≤ d1) (h12 : d1 ≤ d2) :
    (0 ≤ similarity d1 ∧ similarity d1 ≤ 1) ∧ similarity d2 ≤ similarity d1 := by
  unfold similarity
  refine ⟨⟨le_max_left _ _, max_le (by norm_num) (by linarith)⟩, ?_⟩
  exact max_le_max (le_refl 0) (by linarith)

/-- Claim C7, instantiation at distances 1 and 2. -/
theorem C7_witness :
    (0 ≤ similarity 1 ∧ similarity 1 ≤ 1) ∧ similarity 2 ≤ similarity 1 :=
  C7_similarity_bounded_monotone 1 2 (by norm_num) (by norm_num)

/-! ## Claim C8 -/

/-- Claim C8: for every request with non-negative open time (indeed for
every request), the `risk_score` returned by `predict_sla_risk` lies in
`[0, 1]`, the category adjustments included — the final clamp and the
rounding both preserve the unit interval. -/
theorem C8_risk_score_unit_interval (req : SLARiskRequest) (noise now : ℚ)
    (_h : 0 ≤ req.open_time_hours) :
    0 ≤ (predict_sla_risk req noise now).risk_score ∧
    (predict_sla_risk req noise now).risk_score ≤ 1 := by
  have e : (predict_sla_risk req noise now).risk_score = round3 (riskScoreRaw req noise) := rfl
  rw [e]
  exact round3_unit _ (riskScoreRaw_unit req noise).1 (riskScoreRaw_unit req noise).2

/-- Claim C8, instantiation at a concrete request whose adjustments
fire. -/
theorem C8_witness :
    0 ≤ (predict_sla_risk ⟨"High", 4, "Network Problem"⟩ (1/20) 0).risk_score ∧
    (predict_sla_risk ⟨"High", 4, "Network Problem"⟩ (1/20) 0).risk_score ≤ 1 :=
  C8_risk_score_unit_interval ⟨"High", 4, "Network Problem"⟩ (1/20) 0 (by norm_num)

/-! ## Claim C9 -/

/-- Claim C9: after `initialize_faiss_index` builds the artifact, the
number of embedding vectors in the index equals the number of metadata
records, whatever the encoder computes; the module never mutates either
list after the build, so the equality persists while the service is
Ready. -/
theorem C9_vectors_metadata_aligned (enc : String → List ℚ) :
    ((init_faiss_index enc).vectors).length = ((init_faiss_index enc).metadata).length := by
  simp [init_faiss_index, encode_batch]

/-- Claim C9, instantiation at a concrete encoder. -/
theorem C9_witness :
    ((init_faiss_index fun _ => [0]).vectors).length =
      ((init_faiss_index fun _ => [0]).metadata).length :=
  C9_vectors_metadata_aligned fun _ => [0]

/-! ## Claim C10 -/

/-- Claim C10: the out-of-bounds guard of the candidate walk rejects
only positions `≥ len(resolution_metadata)`; every negative position
passes it, and Python indexing then resolves it to a record counted from
the end of the metadata list — concretely, the FAISS padding value `-1`
is accepted and resolves to the last record `res60` instead of being
skipped. -/
theorem C10_negative_index_wraps :
    (∀ idx : Int, idx < 0 → ¬ ((MOCK_RESOLUTIONS_DATA.length : Int) ≤ idx)) ∧
    (∀ idx : Int, idx < 0 → (-idx).toNat ≤ MOCK_RESOLUTIONS_DATA.length →
      pyGet MOCK_RESOLUTIONS_DATA idx =
        MOCK_RESOLUTIONS_DATA.get? (MOCK_RESOLUTIONS_DATA.length - (-idx).toNat)) ∧
    candidateWalk MOCK_RESOLUTIONS_DATA none [(-1, 0)] [] [] =
      some [mkGenuineRec
        ⟨"res60", "Schedule periodic maintenance tasks for optimization.", "Performance Issue"⟩ 0] := by
  refine ⟨?_, ?_, rfl⟩
  · intro idx hneg
    rw [show (MOCK_RESOLUTIONS_DATA.length : Int) = 60 from rfl]
    omega
  · intro idx hneg hlen
    unfold pyGet
    rw [if_neg (by omega), if_pos hlen]

/-- Claim C10, instantiation at the FAISS padding value `-1`. -/
theorem C10_witness :
    ¬ ((MOCK_RESOLUTIONS_DATA.length : Int) ≤ -1) ∧
    pyGet MOCK_RESOLUTIONS_DATA (-1) =
      MOCK_RESOLUTIONS_DATA.get? (MOCK_RESOLUTIONS_DATA.length - ((-(-1 : Int)).toNat)) :=
  ⟨C10_negative_index_wraps.1 (-1) (by norm_num),
   C10_negative_index_wraps.2.1 (-1) (by norm_num) (by decide)⟩
